import Mathlib

/-!
Shallow embedding of `src/librustc_trans/meth.rs` (trait-object vtable
construction and virtual-method dispatch of the rustc translation backend).

External collaborators (the trait resolver, substitution engine, layout
queries, closure/fn-pointer shim generators, constant emission) are modelled
as fields of an explicit environment `Env`; the mutable per-crate context
(`CrateContext`: the vtable cache and the emitted constants) is modelled as an
explicit state value `CrateCtxtState` threaded through `get_vtable`.
Fatal aborts (`bug!`, failing `assert!`, `Option::unwrap` on `None`) are
modelled as `Except Fatal`.
-/

namespace Meth

/-- `DefId`: identity of a definition (trait, impl, method, closure). -/
abbrev DefId := Nat

/-- `syntax::ast::Name`: an interned method name. -/
abbrev MethName := Nat

/-- A type (`Ty<'tcx>`), opaque to this subsystem. -/
abbrev RTy := Nat

/-- A predicate from a method's `where` clause list, opaque here. -/
abbrev Predicate := Nat

/-- The type of a bare function (`bare_fn_ty` in `VtableFnPointerData`). -/
abbrev FnTy := Nat

/-- `ty::ClosureKind` as returned by `tcx.lang_items.fn_trait_kind`. -/
inductive ClosureKind where
  | fnKind
  | fnMutKind
  | fnOnceKind
deriving DecidableEq, Repr

/-- `ty::PolyTraitRef<'tcx>`: trait identity plus substituted arguments
(the erased self type and the remaining parameters).  Structural equality
(`DecidableEq`) is the cache-key equality. -/
structure TraitRef where
  def_id : DefId
  self_ty : RTy
  params : List RTy
deriving DecidableEq, Repr

/-- `Substs<'tcx>`: an instantiation of generic parameters.  Only its
identity and whether it still holds inference variables
(`needs_infer` / failure of `tcx.lift`) are observable in this subsystem. -/
structure Substs where
  id : Nat
  needs_infer : Bool
deriving DecidableEq, Repr

/-- `ty::Method<'tcx>`: the parts of a method descriptor this file reads
(`def_id` for reification, `name`, and the `predicates` list). -/
structure RMethod where
  def_id : DefId
  name : MethName
  predicates : List Predicate
deriving DecidableEq, Repr

/-- An entry of `tcx.trait_item_def_ids(trait_id)`. -/
inductive ImplOrTraitItemId where
  | MethodTraitItemId (d : DefId)
  | TypeTraitItemId (d : DefId)
  | ConstTraitItemId (d : DefId)
deriving DecidableEq, Repr

/-- Result of `tcx.impl_or_trait_item(def_id)`. -/
inductive ImplOrTraitItem where
  | MethodTraitItem (m : RMethod)
  | TypeTraitItem
  | ConstTraitItem
deriving DecidableEq, Repr

/-- Where a node of the specialization ancestor chain lives
(`specialization_graph::Node`): in an impl or in the trait itself.
`is_from_trait` distinguishes a trait-provided default body. -/
inductive ChainNode where
  | fromImpl (d : DefId)
  | fromTrait (d : DefId)
deriving DecidableEq, Repr

/-- `node.is_from_trait()`. -/
def ChainNode.is_from_trait : ChainNode → Bool
  | .fromImpl _ => false
  | .fromTrait _ => true

/-- One element of `trait_def.ancestors(impl_id).fn_defs(tcx, name)`:
a method definition together with the node that supplied it. -/
structure NodeItem where
  item : RMethod
  node : ChainNode
deriving DecidableEq, Repr

/-- `traits::Vtable<'tcx>`: the selection returned by `fulfill_obligation`
for one trait reference, one arm per resolution kind, carrying only the
payload `get_vtable` reads. -/
inductive VtableSelection where
  | VtableImpl (impl_def_id : DefId) (substs : Substs)
  | VtableDefaultImpl
  | VtableBuiltin
  | VtableClosure (closure_def_id : DefId) (substs : Substs)
  | VtableFnPointer (fn_ty : FnTy)
  | VtableObject
  | VtableParam
deriving DecidableEq, Repr

/-- An LLVM `ValueRef` as this subsystem produces and stores them:
a reified function pointer, the null pointer `C_null`, an integer constant
`C_uint`, or the address of an emitted constant (`consts::addr_of`). -/
inductive Value where
  | fnPtr (d : Nat)
  | nullPtr
  | cuint (n : Nat)
  | addr (a : Nat)
deriving DecidableEq, Repr

/-- A fatal compilation abort: a `bug!` invocation (with its message),
a failing `assert!`, or `Option::unwrap` on `None`. -/
inductive Fatal where
  | bug (msg : String)
  | assertFailed
  | unwrapNone
deriving DecidableEq, Repr

/-- `ImplMethod<'tcx>` (the struct at the bottom of `meth.rs`). -/
structure ImplMethod where
  method : RMethod
  substs : Substs
  is_provided : Bool
deriving DecidableEq, Repr

/-- The external collaborators consumed by `meth.rs`, as one record of
functions (fields named after the source calls they stand for). -/
structure Env where
  /-- `traits::supertraits(tcx, trait_ref)`: the enumeration of the trait
  and its supertraits that `get_vtable` flat-maps over. -/
  supertraits : TraitRef → List TraitRef
  /-- `fulfill_obligation(ccx.shared(), DUMMY_SP, trait_ref)`. -/
  fulfill_obligation : TraitRef → VtableSelection
  /-- `tcx.lang_items.fn_trait_kind(def_id)`. -/
  fn_trait_kind : DefId → Option ClosureKind
  /-- `closure::trans_closure_method(ccx, closure_def_id, substs, kind)`. -/
  trans_closure_method : DefId → Substs → ClosureKind → Value
  /-- `callee::trans_fn_pointer_shim(ccx, kind, bare_fn_ty)`. -/
  trans_fn_pointer_shim : ClosureKind → FnTy → Value
  /-- `Callee::def(ccx, mth.method.def_id, &mth.substs).reify(ccx)`. -/
  reify : DefId → Substs → Value
  /-- `glue::get_drop_glue(ccx, ty)`. -/
  get_drop_glue : RTy → Value
  /-- `machine::llsize_of_alloc(ccx, sizing_type_of(ccx, ty))`. -/
  llsize_of_alloc : RTy → Nat
  /-- `align_of(ccx, ty)`. -/
  align_of : RTy → Nat
  /-- `tcx.impl_trait_ref(impl_id)`, projected to its `def_id`
  (the only field `get_vtable_methods` reads). -/
  impl_trait_ref : DefId → Option DefId
  /-- `tcx.trait_item_def_ids(trait_id)`. -/
  trait_item_def_ids : DefId → List ImplOrTraitItemId
  /-- `tcx.impl_or_trait_item(def_id)`. -/
  impl_or_trait_item : DefId → ImplOrTraitItem
  /-- `tcx.is_vtable_safe_method(trait_id, method)`. -/
  is_vtable_safe_method : DefId → RMethod → Bool
  /-- `Substs::for_item(tcx, def_id, erased regions, err types)`. -/
  substs_for_item : DefId → Substs
  /-- `tcx.trait_id_of_impl(impl_def_id)`. -/
  trait_id_of_impl : DefId → Option DefId
  /-- `tcx.lookup_trait_def(trait_id).ancestors(impl_id).fn_defs(tcx, name)`
  as a list (`.next()` is its head). -/
  ancestors_fn_defs : DefId → DefId → MethName → List NodeItem
  /-- `substs.rebase_onto(tcx, trait_def_id, impl_substs)`. -/
  rebase_onto : Substs → DefId → Substs → Substs
  /-- `traits::translate_substs(&infcx, impl_def_id, substs, node)`. -/
  translate_substs : DefId → Substs → ChainNode → Substs
  /-- `mth.method.predicates.predicates.subst(tcx, &mth.substs)`. -/
  subst_predicates : List Predicate → Substs → List Predicate
  /-- `normalize_and_test_predicates(tcx, predicates)`. -/
  normalize_and_test_predicates : List Predicate → Bool

/-- The mutable per-crate context as far as `meth.rs` touches it:
the vtable cache `ccx.vtables()`, the emitted read-only constants
(`consts::addr_of`; the address of a constant is its index), and a counter
of vtable builds (cache misses that ran the construction). -/
structure CrateCtxtState where
  vtables : List (TraitRef × Value)
  memory : List (List Value)
  build_count : Nat
deriving DecidableEq, Repr

/-- `ccx.vtables().borrow().get(&trait_ref)`. -/
def lookupCache : List (TraitRef × Value) → TraitRef → Option Value
  | [], _ => none
  | (k, v) :: rest, tr => if k = tr then some v else lookupCache rest tr

/-- `const VTABLE_OFFSET: usize = 3;` — drop_glue pointer, size, align. -/
def VTABLE_OFFSET : Nat := 3

/-- Effectful `map` over a list: Rust's iterator `map`/`flat_map` bodies in
`meth.rs` can abort via `bug!`/`unwrap`, so collecting them is mapping a
`Fatal`-throwing function, stopping at the first abort. -/
def mapME (f : α → Except Fatal β) : List α → Except Fatal (List β)
  | [] => .ok []
  | a :: l =>
    match f a with
    | .error e => .error e
    | .ok b =>
      match mapME f l with
      | .error e => .error e
      | .ok bs => .ok (b :: bs)

/-- `get_impl_method(tcx, substs, impl_def_id, impl_substs, name)`:
locates the applicable definition of a method, given its name. -/
def get_impl_method (env : Env) (substs : Substs) (impl_def_id : DefId)
    (impl_substs : Substs) (name : MethName) : Except Fatal ImplMethod :=
  -- assert!(!substs.needs_infer());
  if substs.needs_infer then .error .assertFailed
  else
    match env.trait_id_of_impl impl_def_id with
    | none => .error .unwrapNone       -- .unwrap()
    | some trait_def_id =>
      match env.ancestors_fn_defs trait_def_id impl_def_id name with
      | node_item :: _ =>
        let substs1 := env.rebase_onto substs trait_def_id impl_substs
        let substs2 := env.translate_substs impl_def_id substs1 node_item.node
        -- tcx.lift(&substs).unwrap_or_else(|| bug!(...)): lift fails exactly
        -- when the translated substitution still holds inference variables.
        if substs2.needs_infer then
          .error (.bug "trans::meth::get_impl_method: translate_substs returned substs which contains inference types/regions")
        else
          .ok { method := node_item.item
                substs := substs2
                is_provided := node_item.node.is_from_trait }
      | [] => .error (.bug "method not found in impl")

/-- The direct method items of a trait, in declaration order: the
`filter_map` over `trait_item_def_ids` keeping `MethodTraitItemId`s. -/
def directMethodIds (env : Env) (trait_id : DefId) : List DefId :=
  (env.trait_item_def_ids trait_id).filterMap fun item =>
    match item with
    | .MethodTraitItemId d => some d
    | _ => none

/-- The body of the per-method `map` closure in `get_vtable_methods`:
produce a resolved method or a deliberate `None` for one trait method. -/
def vtableEntryFor (env : Env) (trait_id : DefId) (impl_id : DefId)
    (substs : Substs) (trait_method_def_id : DefId) :
    Except Fatal (Option ImplMethod) :=
  match env.impl_or_trait_item trait_method_def_id with
  | .MethodTraitItem trait_method_type =>
    let name := trait_method_type.name
    -- Some methods cannot be called on an object; skip those.
    if ¬ env.is_vtable_safe_method trait_id trait_method_type then .ok none
    else
      let method_substs := env.substs_for_item trait_method_def_id
      match get_impl_method env method_substs impl_id substs name with
      | .error e => .error e
      | .ok mth =>
        -- A default method may rely on where clauses that do not hold for
        -- this particular set of type parameters (issue #23435).
        if mth.is_provided then
          let predicates := env.subst_predicates mth.method.predicates mth.substs
          if ¬ env.normalize_and_test_predicates predicates then .ok none
          else .ok (some mth)
        else .ok (some mth)
  | _ => .error (.bug "should be a method, not other assoc item")

/-- `get_vtable_methods(tcx, impl_id, substs)`. -/
def get_vtable_methods (env : Env) (impl_id : DefId) (substs : Substs) :
    Except Fatal (List (Option ImplMethod)) :=
  match env.impl_trait_ref impl_id with
  | none => .error (.bug "make_impl_vtable: do not know how to make a vtable for a type impl!")
  | some trait_id =>
    mapME (vtableEntryFor env trait_id impl_id substs)
      (directMethodIds env trait_id)

/-- The body of the `flat_map` closure in `get_vtable`: the method slots
contributed by one trait reference of the supertrait enumeration, decided
by the resolution kind `fulfill_obligation` returns. -/
def vtableContribution (env : Env) (trait_ref : TraitRef) :
    Except Fatal (List Value) :=
  match env.fulfill_obligation trait_ref with
  | .VtableDefaultImpl | .VtableBuiltin => .ok []
  | .VtableImpl id substs =>
    match get_vtable_methods env id substs with
    | .error e => .error e
    | .ok ms =>
      -- opt_mth.map_or(nullptr, |mth| Callee::def(...).reify(ccx))
      .ok (ms.map fun opt_mth =>
        match opt_mth with
        | none => Value.nullPtr
        | some mth => env.reify mth.method.def_id mth.substs)
  | .VtableClosure closure_def_id substs =>
    match env.fn_trait_kind trait_ref.def_id with
    | none => .error .unwrapNone     -- .unwrap()
    | some trait_closure_kind =>
      .ok [env.trans_closure_method closure_def_id substs trait_closure_kind]
  | .VtableFnPointer bare_fn_ty =>
    match env.fn_trait_kind trait_ref.def_id with
    | none => .error .unwrapNone     -- .unwrap()
    | some trait_closure_kind =>
      .ok [env.trans_fn_pointer_shim trait_closure_kind bare_fn_ty]
  | .VtableObject =>
    -- the Self type being erased would be an object type
    .error (.bug "cannot get vtable for an object type")
  | .VtableParam =>
    .error (.bug "resolved vtable to bad vtable VtableParam in trans")

/-- The full flat-mapped method region of a vtable: the concatenation of
the contributions of the supertrait enumeration, in enumeration order. -/
def vtableMethodValues (env : Env) (trait_ref : TraitRef) :
    Except Fatal (List Value) :=
  match mapME (vtableContribution env) (env.supertraits trait_ref) with
  | .error e => .error e
  | .ok lists => .ok lists.flatten

/-- `get_vtable(ccx, trait_ref)`: check the cache, otherwise build the
components [drop glue, size, align] ++ methods, emit them as a read-only
constant, cache and return its address. -/
def get_vtable (env : Env) (st : CrateCtxtState) (trait_ref : TraitRef) :
    Except Fatal (Value × CrateCtxtState) :=
  -- Check the cache.
  match lookupCache st.vtables trait_ref with
  | some val => .ok (val, st)
  | none =>
    -- Not in the cache. Build it.
    match vtableMethodValues env trait_ref with
    | .error e => .error e
    | .ok methods =>
      let size := env.llsize_of_alloc trait_ref.self_ty
      let align := env.align_of trait_ref.self_ty
      let components : List Value :=
        [ env.get_drop_glue trait_ref.self_ty,
          Value.cuint size,
          Value.cuint align ] ++ methods
      -- consts::addr_of(ccx, vtable_const, align, "vtable")
      let vtable := Value.addr st.memory.length
      .ok (vtable,
           { vtables := (trait_ref, vtable) :: st.vtables
             memory := st.memory ++ [components]
             build_count := st.build_count + 1 })

/-- `Load(bcx, GEPi(bcx, llvtable, &[offset]))`: read entry `offset` of the
constant table `llvtable` points at; out of range or a non-address is
undefined (`none`). -/
def loadTableEntry (st : CrateCtxtState) (llvtable : Value) (offset : Nat) :
    Option Value :=
  match llvtable with
  | .addr a =>
    match st.memory[a]? with
    | some table => table[offset]?
    | none => none
  | _ => none

/-- `get_virtual_method(bcx, llvtable, vtable_index)`: extracts a method
from a trait object's vtable, at the specified index. -/
def get_virtual_method (st : CrateCtxtState) (llvtable : Value)
    (vtable_index : Nat) : Option Value :=
  loadTableEntry st llvtable (vtable_index + VTABLE_OFFSET)

/-- Modelled from the spec: the supertrait enumeration order.  The function
`traits::supertraits` that `get_vtable` iterates is code of this repository
that is not under `src/` (only its caller is), so its order is taken from
the spec: "Enumerate the trait and all supertraits, depth-first, declaration
order", with the method region listing "supertraits depth-first in
declaration order" before the trait's own methods.  `supers` gives each
trait's direct supertraits in declaration order; `fuel` bounds the depth of
the (finite) supertrait hierarchy. -/
def specSupertraits (supers : TraitRef → List TraitRef) :
    Nat → TraitRef → List TraitRef
  | 0, tr => [tr]
  | fuel + 1, tr =>
    ((supers tr).map (specSupertraits supers fuel)).flatten ++ [tr]

/-! Concrete instantiation used to exercise the definitions: a trait `S`
(def id 0, one method, item id 1000, name 5) that is the single supertrait
of a trait `T` (def id 1, one direct method, item id 1001, name 6), both
implemented for a self type `10` (size 8, align 4) by ordinary impls
100 and 101. -/

/-- The trait reference `10 : S` of the example. -/
def trS : TraitRef := { def_id := 0, self_ty := 10, params := [] }

/-- The trait reference `10 : T` of the example. -/
def trT : TraitRef := { def_id := 1, self_ty := 10, params := [] }

/-- Direct supertraits of the example hierarchy: `T` has `[S]`, `S` none. -/
def exSupers : TraitRef → List TraitRef :=
  fun tr => if tr.def_id = 1 then [trS] else []

/-- The example environment.  `supertraits` follows `specSupertraits` on
the example hierarchy; each trait resolves to its ordinary impl; the impls
provide their own (non-default) bodies with inference-free substitutions. -/
def baseEnv : Env where
  supertraits := fun tr => specSupertraits exSupers 1 tr
  fulfill_obligation := fun tr =>
    if tr.def_id = 0 then .VtableImpl 100 { id := 50, needs_infer := false }
    else .VtableImpl 101 { id := 51, needs_infer := false }
  fn_trait_kind := fun _ => some .fnKind
  trans_closure_method := fun d _ _ => .fnPtr (d + 7000)
  trans_fn_pointer_shim := fun _ f => .fnPtr (f + 8000)
  reify := fun d _ => .fnPtr d
  get_drop_glue := fun ty => .fnPtr (ty + 9000)
  llsize_of_alloc := fun _ => 8
  align_of := fun _ => 4
  impl_trait_ref := fun i =>
    if i = 100 then some 0 else if i = 101 then some 1 else none
  trait_item_def_ids := fun t =>
    if t = 0 then [.MethodTraitItemId 1000]
    else if t = 1 then [.MethodTraitItemId 1001]
    else []
  impl_or_trait_item := fun d =>
    if d = 1000 then .MethodTraitItem { def_id := 1000, name := 5, predicates := [] }
    else if d = 1001 then .MethodTraitItem { def_id := 1001, name := 6, predicates := [] }
    else .TypeTraitItem
  is_vtable_safe_method := fun _ _ => true
  substs_for_item := fun d => { id := d, needs_infer := false }
  trait_id_of_impl := fun i =>
    if i = 100 then some 0 else if i = 101 then some 1 else none
  ancestors_fn_defs := fun _ _ n =>
    if n = 5 then [{ item := { def_id := 2000, name := 5, predicates := [] }
                     node := .fromImpl 100 }]
    else if n = 6 then [{ item := { def_id := 2001, name := 6, predicates := [] }
                          node := .fromImpl 101 }]
    else []
  rebase_onto := fun s _ _ => s
  translate_substs := fun _ s _ => s
  subst_predicates := fun ps _ => ps
  normalize_and_test_predicates := fun ps => ps.isEmpty

/-- The empty crate context: nothing cached, nothing emitted. -/
def st0 : CrateCtxtState := { vtables := [], memory := [], build_count := 0 }

/-- Variant environment for the default-impl resolution kind. -/
def envDefaultImpl : Env :=
  { baseEnv with fulfill_obligation := fun _ => .VtableDefaultImpl }

/-- Variant environment for the builtin (marker) resolution kind. -/
def envBuiltin : Env :=
  { baseEnv with fulfill_obligation := fun _ => .VtableBuiltin }

/-- Variant environment: the self type is a closure satisfying the trait. -/
def envClosure : Env :=
  { baseEnv with fulfill_obligation :=
      fun _ => .VtableClosure 300 { id := 60, needs_infer := false } }

/-- Variant environment: the self type is a bare function pointer. -/
def envFnPointer : Env :=
  { baseEnv with fulfill_obligation := fun _ => .VtableFnPointer 77 }

/-- Variant environment: resolution returns `VtableObject` for `S`. -/
def envObject : Env :=
  { baseEnv with fulfill_obligation := fun _ => .VtableObject }

/-- Variant environment: resolution returns `VtableParam` for `S`. -/
def envParam : Env :=
  { baseEnv with fulfill_obligation := fun _ => .VtableParam }

/-- Variant environment for the unreachable-default-method case: method
item 1000 is a trait-provided default body (`fromTrait`, so `is_provided`)
whose predicate list `[3]` does not hold for this instantiation
(`normalize_and_test_predicates` is true only of the empty list). -/
def envPoisoned : Env :=
  { baseEnv with
    impl_or_trait_item := fun d =>
      if d = 1000 then .MethodTraitItem { def_id := 1000, name := 5, predicates := [3] }
      else .TypeTraitItem
    ancestors_fn_defs := fun _ _ n =>
      if n = 5 then [{ item := { def_id := 1000, name := 5, predicates := [3] }
                       node := .fromTrait 0 }]
      else [] }

/-! Theorems.  The helper lemmas about `mapME` come first; one theorem per
claim follows, each with a closed witness where the theorem has
hypotheses. -/

theorem mapME_ok_length {α β : Type} {f : α → Except Fatal β} :
    ∀ {l : List α} {bs : List β}, mapME f l = .ok bs → bs.length = l.length := by
  intro l
  induction l with
  | nil =>
    intro bs h
    simp only [mapME] at h
    cases h
    rfl
  | cons a l ih =>
    intro bs h
    simp only [mapME] at h
    cases hfa : f a with
    | error e => rw [hfa] at h; cases h
    | ok b =>
      rw [hfa] at h
      cases hrec : mapME f l with
      | error e => rw [hrec] at h; cases h
      | ok bs2 =>
        rw [hrec] at h
        cases h
        simp [ih hrec]

theorem mapME_ok_get {α β : Type} {f : α → Except Fatal β} :
    ∀ {l : List α} {bs : List β}, mapME f l = .ok bs →
      ∀ (i : Nat) (a : α), l[i]? = some a → ∃ b, bs[i]? = some b ∧ f a = .ok b := by
  intro l
  induction l with
  | nil =>
    intro bs _ i a ha
    simp at ha
  | cons x l ih =>
    intro bs h i a ha
    simp only [mapME] at h
    cases hfa : f x with
    | error e => rw [hfa] at h; cases h
    | ok b =>
      rw [hfa] at h
      cases hrec : mapME f l with
      | error e => rw [hrec] at h; cases h
      | ok bs2 =>
        rw [hrec] at h
        cases h
        cases i with
        | zero =>
          simp at ha
          subst ha
          exact ⟨b, by simp, hfa⟩
        | succ i =>
          simp at ha
          obtain ⟨b2, hb2, hfb2⟩ := ih hrec i a ha
          exact ⟨b2, by simpa using hb2, hfb2⟩

theorem mapME_error_of_mem {α β : Type} {f : α → Except Fatal β} :
    ∀ {l : List α} {a : α}, a ∈ l → ∀ {e : Fatal}, f a = .error e →
      ∃ e2, mapME f l = .error e2 := by
  intro l
  induction l with
  | nil =>
    intro a ha
    cases ha
  | cons x l ih =>
    intro a ha e he
    rcases List.mem_cons.mp ha with h | h
    · subst h
      exact ⟨e, by simp [mapME, he]⟩
    · cases hfx : f x with
      | error e2 => exact ⟨e2, by simp [mapME, hfx]⟩
      | ok b =>
        obtain ⟨e2, he2⟩ := ih h he
        exact ⟨e2, by simp [mapME, hfx, he2]⟩

/-- Shared helper: what a cache-miss `get_vtable` run writes, read back
through `loadTableEntry`/`get_virtual_method`. -/
theorem get_vtable_build_loads
    (env : Env) (st : CrateCtxtState) (trait_ref : TraitRef)
    (ms : List Value) (v : Value) (st2 : CrateCtxtState)
    (hmiss : lookupCache st.vtables trait_ref = none)
    (hms : vtableMethodValues env trait_ref = .ok ms)
    (hbuild : get_vtable env st trait_ref = .ok (v, st2)) :
    loadTableEntry st2 v 0 = some (env.get_drop_glue trait_ref.self_ty) ∧
    loadTableEntry st2 v 1 = some (.cuint (env.llsize_of_alloc trait_ref.self_ty)) ∧
    loadTableEntry st2 v 2 = some (.cuint (env.align_of trait_ref.self_ty)) ∧
    ∀ i, i < ms.length →
      get_virtual_method st2 v i = loadTableEntry st2 v (i + VTABLE_OFFSET) ∧
      get_virtual_method st2 v i = ms[i]? := by
  unfold get_vtable at hbuild
  rw [hmiss, hms] at hbuild
  simp only [Except.ok.injEq, Prod.mk.injEq] at hbuild
  obtain ⟨hv, hst⟩ := hbuild
  subst hv
  subst hst
  have hmem : (st.memory ++
      [[env.get_drop_glue trait_ref.self_ty,
        Value.cuint (env.llsize_of_alloc trait_ref.self_ty),
        Value.cuint (env.align_of trait_ref.self_ty)] ++ ms])[st.memory.length]? =
      some ([env.get_drop_glue trait_ref.self_ty,
        Value.cuint (env.llsize_of_alloc trait_ref.self_ty),
        Value.cuint (env.align_of trait_ref.self_ty)] ++ ms) :=
    List.getElem?_concat_length _ _
  refine ⟨?_, ?_, ?_, ?_⟩
  · simp [loadTableEntry, hmem]
  · simp [loadTableEntry, hmem]
  · simp [loadTableEntry, hmem]
  · intro i _
    constructor
    · rfl
    · simp only [get_virtual_method, loadTableEntry, hmem, VTABLE_OFFSET]
      simp [List.getElem?_append_right]

/-- Claim C1: for every vtable built by `get_vtable`, the entries at table
offsets 0-2 are exactly the destructor pointer, size and alignment of the
self type, and for every slot index `i` within the method count,
`get_virtual_method` loads table offset `i + 3`, returning exactly the
value written for slot `i` at construction. -/
theorem C1_vtable_header_and_virtual_method
    (env : Env) (st : CrateCtxtState) (trait_ref : TraitRef)
    (ms : List Value) (v : Value) (st2 : CrateCtxtState)
    (hmiss : lookupCache st.vtables trait_ref = none)
    (hms : vtableMethodValues env trait_ref = .ok ms)
    (hbuild : get_vtable env st trait_ref = .ok (v, st2)) :
    loadTableEntry st2 v 0 = some (env.get_drop_glue trait_ref.self_ty) ∧
    loadTableEntry st2 v 1 = some (.cuint (env.llsize_of_alloc trait_ref.self_ty)) ∧
    loadTableEntry st2 v 2 = some (.cuint (env.align_of trait_ref.self_ty)) ∧
    ∀ i, i < ms.length →
      get_virtual_method st2 v i = loadTableEntry st2 v (i + VTABLE_OFFSET) ∧
      get_virtual_method st2 v i = ms[i]? :=
  get_vtable_build_loads env st trait_ref ms v st2 hmiss hms hbuild

/-- Closed witness for C1 at the concrete example environment. -/
theorem C1_witness :
    loadTableEntry
        { vtables := [(trT, Value.addr 0)]
          memory := [[Value.fnPtr 9010, Value.cuint 8, Value.cuint 4,
                      Value.fnPtr 2000, Value.fnPtr 2001]]
          build_count := 1 } (Value.addr 0) 0 = some (Value.fnPtr 9010) ∧
    get_virtual_method
        { vtables := [(trT, Value.addr 0)]
          memory := [[Value.fnPtr 9010, Value.cuint 8, Value.cuint 4,
                      Value.fnPtr 2000, Value.fnPtr 2001]]
          build_count := 1 } (Value.addr 0) 1 = some (Value.fnPtr 2001) := by
  have h := C1_vtable_header_and_virtual_method baseEnv st0 trT
    [Value.fnPtr 2000, Value.fnPtr 2001] (Value.addr 0)
    { vtables := [(trT, Value.addr 0)]
      memory := [[Value.fnPtr 9010, Value.cuint 8, Value.cuint 4,
                  Value.fnPtr 2000, Value.fnPtr 2001]]
      build_count := 1 }
    rfl rfl rfl
  exact ⟨h.1, ((h.2.2.2 1 (by decide)).2).trans rfl⟩

/-- Claim C2: `get_vtable` is cached: structurally equal trait references
get the same handle, a successful call performs at most one build, and a
repeated call is a cache hit returning the stored handle with the state
(in particular the build counter) unchanged. -/
theorem C2_vtable_cached
    (env : Env) (st : CrateCtxtState) (trait_ref : TraitRef)
    (v : Value) (st2 : CrateCtxtState)
    (h : get_vtable env st trait_ref = .ok (v, st2)) :
    get_vtable env st2 trait_ref = .ok (v, st2) ∧
    st2.build_count ≤ st.build_count + 1 ∧
    ∀ trait_ref2, trait_ref2 = trait_ref →
      get_vtable env st trait_ref2 = .ok (v, st2) := by
  unfold get_vtable at h
  cases hc : lookupCache st.vtables trait_ref with
  | some val =>
    rw [hc] at h
    simp only [Except.ok.injEq, Prod.mk.injEq] at h
    obtain ⟨hv, hst⟩ := h
    subst hv
    subst hst
    refine ⟨?_, Nat.le_succ _, ?_⟩
    · unfold get_vtable
      rw [hc]
    · intro tr2 htr2
      subst htr2
      unfold get_vtable
      rw [hc]
  | none =>
    rw [hc] at h
    cases hm : vtableMethodValues env trait_ref with
    | error e => rw [hm] at h; cases h
    | ok methods =>
      rw [hm] at h
      simp only [Except.ok.injEq, Prod.mk.injEq] at h
      obtain ⟨hv, hst⟩ := h
      subst hv
      subst hst
      refine ⟨?_, Nat.le_refl _, ?_⟩
      · unfold get_vtable
        simp [lookupCache]
      · intro tr2 htr2
        subst htr2
        unfold get_vtable
        rw [hc, hm]

/-- Closed witness for C2: on the concrete example the second call is a
cache hit returning the stored handle. -/
theorem C2_witness :
    get_vtable baseEnv
      { vtables := [(trT, Value.addr 0)]
        memory := [[Value.fnPtr 9010, Value.cuint 8, Value.cuint 4,
                    Value.fnPtr 2000, Value.fnPtr 2001]]
        build_count := 1 } trT = .ok (Value.addr 0,
      { vtables := [(trT, Value.addr 0)]
        memory := [[Value.fnPtr 9010, Value.cuint 8, Value.cuint 4,
                    Value.fnPtr 2000, Value.fnPtr 2001]]
        build_count := 1 }) :=
  (C2_vtable_cached baseEnv st0 trT (Value.addr 0) _ rfl).1

/-- Claim C3: for every ordinary impl, `get_vtable_methods` returns one
entry per direct trait method (associated types and consts excluded), a
`none` for every non-object-safe method — the slot is reserved, never
omitted — and in `get_vtable`'s lowering such a `none` becomes the null
pointer at the same slot. -/
theorem C3_slot_per_method_null_for_unsafe
    (env : Env) (impl_id : DefId) (substs : Substs) (trait_id : DefId)
    (ms : List (Option ImplMethod))
    (htr : env.impl_trait_ref impl_id = some trait_id)
    (hok : get_vtable_methods env impl_id substs = .ok ms) :
    ms.length = (directMethodIds env trait_id).length ∧
    (∀ (i : Nat) (d : DefId) (m : RMethod),
      (directMethodIds env trait_id)[i]? = some d →
      env.impl_or_trait_item d = .MethodTraitItem m →
      env.is_vtable_safe_method trait_id m = false →
      ms[i]? = some none) ∧
    (∀ (tr : TraitRef) (vs : List Value) (i : Nat),
      env.fulfill_obligation tr = .VtableImpl impl_id substs →
      vtableContribution env tr = .ok vs →
      ms[i]? = some none → vs[i]? = some Value.nullPtr) := by
  have hok2 : mapME (vtableEntryFor env trait_id impl_id substs)
      (directMethodIds env trait_id) = .ok ms := by
    unfold get_vtable_methods at hok
    rw [htr] at hok
    exact hok
  refine ⟨mapME_ok_length hok2, ?_, ?_⟩
  · intro i d m hd hitem hnotsafe
    obtain ⟨b, hb, hfb⟩ := mapME_ok_get hok2 i d hd
    unfold vtableEntryFor at hfb
    rw [hitem] at hfb
    simp only [hnotsafe] at hfb
    simp at hfb
    rw [hb, hfb]
  · intro tr vs i hful hcontrib hnone
    simp only [vtableContribution, hful, hok] at hcontrib
    simp only [Except.ok.injEq] at hcontrib
    subst hcontrib
    simp [List.getElem?_map, hnone]

/-- Closed witness for C3 at an environment whose single trait method is
not object-safe, so its reserved slot is null. -/
theorem C3_witness :
    (get_vtable_methods
        { baseEnv with is_vtable_safe_method := fun _ _ => false }
        100 { id := 50, needs_infer := false } = .ok [none]) ∧
    [Option.some (Option.none (α := ImplMethod))].length =
      (directMethodIds
        { baseEnv with is_vtable_safe_method := fun _ _ => false } 0).length := by
  have h := C3_slot_per_method_null_for_unsafe
    { baseEnv with is_vtable_safe_method := fun _ _ => false }
    100 { id := 50, needs_infer := false } 0 [none] rfl rfl
  exact ⟨rfl, by simpa using h.1⟩

/-- Claim C4: a default/provided trait method whose substituted predicate
list is unsatisfiable for the concrete instantiation yields a null slot
(`.ok none`: success, never an emitted body) from the per-method
collector, and a successful `get_vtable_methods` run carries that null at
the method's slot. -/
theorem C4_unsatisfiable_default_is_null
    (env : Env) (trait_id impl_id : DefId) (substs : Substs)
    (d : DefId) (m : RMethod) (mth : ImplMethod)
    (htr : env.impl_trait_ref impl_id = some trait_id)
    (hitem : env.impl_or_trait_item d = .MethodTraitItem m)
    (hsafe : env.is_vtable_safe_method trait_id m = true)
    (hres : get_impl_method env (env.substs_for_item d) impl_id substs m.name
      = .ok mth)
    (hprov : mth.is_provided = true)
    (hpred : env.normalize_and_test_predicates
      (env.subst_predicates mth.method.predicates mth.substs) = false) :
    vtableEntryFor env trait_id impl_id substs d = .ok none ∧
    ∀ (ms : List (Option ImplMethod)) (i : Nat),
      get_vtable_methods env impl_id substs = .ok ms →
      (directMethodIds env trait_id)[i]? = some d →
      ms[i]? = some none := by
  have hentry : vtableEntryFor env trait_id impl_id substs d = .ok none := by
    unfold vtableEntryFor
    rw [hitem]
    simp only [hsafe]
    simp only [hres]
    simp [hprov, hpred]
  refine ⟨hentry, ?_⟩
  intro ms i hok hd
  have hok2 : mapME (vtableEntryFor env trait_id impl_id substs)
      (directMethodIds env trait_id) = .ok ms := by
    unfold get_vtable_methods at hok
    rw [htr] at hok
    exact hok
  obtain ⟨b, hb, hfb⟩ := mapME_ok_get hok2 i d hd
  rw [hentry] at hfb
  cases hfb
  exact hb

/-- Closed witness for C4 at the poisoned-default-method environment. -/
theorem C4_witness :
    vtableEntryFor envPoisoned 0 100 { id := 50, needs_infer := false } 1000
      = .ok none :=
  (C4_unsatisfiable_default_is_null envPoisoned 0 100
    { id := 50, needs_infer := false } 1000
    { def_id := 1000, name := 5, predicates := [3] }
    { method := { def_id := 1000, name := 5, predicates := [3] }
      substs := { id := 1000, needs_infer := false }
      is_provided := true }
    rfl rfl rfl rfl rfl rfl).1

/-- Claim C5: the method region concatenates the contributions of the
supertrait enumeration in enumeration order; with the spec-modelled
depth-first order (supertraits before the trait itself), a trait with one
supertrait `S` (one object-safe method) and one direct method `M` yields a
vtable listing `S`'s method before `M`. -/
theorem C5_supertrait_method_first
    (env : Env) (st : CrateCtxtState)
    (supers : TraitRef → List TraitRef) (trJ trI : TraitRef)
    (sFn mFn : Value) (v : Value) (st2 : CrateCtxtState)
    (henum : env.supertraits trJ = specSupertraits supers 1 trJ)
    (hdirect : supers trJ = [trI])
    (hS : vtableContribution env trI = .ok [sFn])
    (hT : vtableContribution env trJ = .ok [mFn])
    (hmiss : lookupCache st.vtables trJ = none)
    (hbuild : get_vtable env st trJ = .ok (v, st2)) :
    vtableMethodValues env trJ = .ok [sFn, mFn] ∧
    get_virtual_method st2 v 0 = some sFn ∧
    get_virtual_method st2 v 1 = some mFn := by
  have hmv : vtableMethodValues env trJ = .ok [sFn, mFn] := by
    unfold vtableMethodValues
    rw [henum]
    simp only [specSupertraits, hdirect]
    simp [mapME, hS, hT, specSupertraits]
  have h := get_vtable_build_loads env st trJ [sFn, mFn] v st2 hmiss hmv hbuild
  refine ⟨hmv, ?_, ?_⟩
  · exact ((h.2.2.2 0 (by simp)).2).trans rfl
  · exact ((h.2.2.2 1 (by simp)).2).trans rfl

/-- Closed witness for C5 at the concrete example hierarchy: `T` has the
single supertrait `S`; `S`'s method (impl body 2000) occupies slot 0,
`T`'s direct method (impl body 2001) slot 1. -/
theorem C5_witness :
    vtableMethodValues baseEnv trT = .ok [Value.fnPtr 2000, Value.fnPtr 2001] := by
  have h := C5_supertrait_method_first baseEnv st0 exSupers trT trS
    (Value.fnPtr 2000) (Value.fnPtr 2001) (Value.addr 0)
    { vtables := [(trT, Value.addr 0)]
      memory := [[Value.fnPtr 9010, Value.cuint 8, Value.cuint 4,
                  Value.fnPtr 2000, Value.fnPtr 2001]]
      build_count := 1 }
    rfl rfl rfl rfl rfl rfl
  exact h.1

/-- Claim C6: slot counts per resolution kind: a default or builtin
(marker) impl contributes zero method entries; a closure resolution
contributes exactly the one slot holding the closure's call-shim for the
resolved call kind; a bare-function-pointer resolution contributes exactly
the one slot holding the calling-convention-adapting shim. -/
theorem C6_resolution_kind_slot_counts (env : Env) (tr : TraitRef) :
    (env.fulfill_obligation tr = .VtableDefaultImpl →
      vtableContribution env tr = .ok []) ∧
    (env.fulfill_obligation tr = .VtableBuiltin →
      vtableContribution env tr = .ok []) ∧
    (∀ (cid : DefId) (csubsts : Substs) (k : ClosureKind),
      env.fulfill_obligation tr = .VtableClosure cid csubsts →
      env.fn_trait_kind tr.def_id = some k →
      vtableContribution env tr = .ok [env.trans_closure_method cid csubsts k]) ∧
    (∀ (fty : FnTy) (k : ClosureKind),
      env.fulfill_obligation tr = .VtableFnPointer fty →
      env.fn_trait_kind tr.def_id = some k →
      vtableContribution env tr = .ok [env.trans_fn_pointer_shim k fty]) := by
  refine ⟨?_, ?_, ?_, ?_⟩
  · intro h
    simp [vtableContribution, h]
  · intro h
    simp [vtableContribution, h]
  · intro cid csubsts k h hk
    simp [vtableContribution, h, hk]
  · intro fty k h hk
    simp [vtableContribution, h, hk]

/-- Closed witness for C6 at the four variant environments. -/
theorem C6_witness :
    vtableContribution envDefaultImpl trS = .ok [] ∧
    vtableContribution envBuiltin trS = .ok [] ∧
    vtableContribution envClosure trS = .ok [Value.fnPtr 7300] ∧
    vtableContribution envFnPointer trS = .ok [Value.fnPtr 8077] :=
  ⟨(C6_resolution_kind_slot_counts envDefaultImpl trS).1 rfl,
   (C6_resolution_kind_slot_counts envBuiltin trS).2.1 rfl,
   (C6_resolution_kind_slot_counts envClosure trS).2.2.1 300
     { id := 60, needs_infer := false } .fnKind rfl rfl,
   (C6_resolution_kind_slot_counts envFnPointer trS).2.2.2 77 .fnKind rfl rfl⟩

/-- Claim C7: an `Object` resolution (re-erasing an erased self type) or a
`Parameter`-bound resolution during vtable construction is a fatal
internal error: the contribution is the corresponding `bug!` abort and
`get_vtable` returns an error, never a vtable. -/
theorem C7_object_or_param_fatal
    (env : Env) (st : CrateCtxtState) (tr tr2 : TraitRef)
    (hmiss : lookupCache st.vtables tr = none)
    (hmem : tr2 ∈ env.supertraits tr)
    (hbad : env.fulfill_obligation tr2 = .VtableObject ∨
            env.fulfill_obligation tr2 = .VtableParam) :
    (env.fulfill_obligation tr2 = .VtableObject →
      vtableContribution env tr2 =
        .error (.bug "cannot get vtable for an object type")) ∧
    (env.fulfill_obligation tr2 = .VtableParam →
      vtableContribution env tr2 =
        .error (.bug "resolved vtable to bad vtable VtableParam in trans")) ∧
    ∃ e, get_vtable env st tr = .error e := by
  refine ⟨?_, ?_, ?_⟩
  · intro h
    simp [vtableContribution, h]
  · intro h
    simp [vtableContribution, h]
  · have hcerr : ∃ e0, vtableContribution env tr2 = .error e0 := by
      rcases hbad with h | h
      · exact ⟨.bug "cannot get vtable for an object type",
               by simp [vtableContribution, h]⟩
      · exact ⟨.bug "resolved vtable to bad vtable VtableParam in trans",
               by simp [vtableContribution, h]⟩
    obtain ⟨e0, he0⟩ := hcerr
    obtain ⟨e2, he2⟩ := mapME_error_of_mem hmem he0
    refine ⟨e2, ?_⟩
    unfold get_vtable
    rw [hmiss]
    have hmv : vtableMethodValues env tr = .error e2 := by
      unfold vtableMethodValues
      rw [he2]
    rw [hmv]

/-- Closed witness for C7: with `S` resolving to `VtableObject`, building
`T`'s vtable aborts. -/
theorem C7_witness : ∃ e, get_vtable envObject st0 trT = .error e :=
  (C7_object_or_param_fatal envObject st0 trT trS rfl
    (by decide) (Or.inl rfl)).2.2

/-- Claim C8: `get_impl_method` returns the first (most specific)
definition along the ancestor chain from the impl to the trait, with
`is_provided` marking a trait-supplied default body, and with the
substitution obtained by rebasing onto the impl substitution and
translating to the defining node; it is a fatal internal error if no
definition exists or the translated substitution still holds inference
variables. -/
theorem C8_impl_method_resolution
    (env : Env) (substs : Substs) (impl_def_id : DefId)
    (impl_substs : Substs) (name : MethName) (trait_def_id : DefId)
    (hni : substs.needs_infer = false)
    (htid : env.trait_id_of_impl impl_def_id = some trait_def_id) :
    (∀ (node_item : NodeItem) (rest : List NodeItem),
      env.ancestors_fn_defs trait_def_id impl_def_id name = node_item :: rest →
      (((env.translate_substs impl_def_id
            (env.rebase_onto substs trait_def_id impl_substs)
            node_item.node).needs_infer = false →
        get_impl_method env substs impl_def_id impl_substs name =
          .ok { method := node_item.item
                substs := env.translate_substs impl_def_id
                  (env.rebase_onto substs trait_def_id impl_substs)
                  node_item.node
                is_provided := node_item.node.is_from_trait }) ∧
       ((env.translate_substs impl_def_id
            (env.rebase_onto substs trait_def_id impl_substs)
            node_item.node).needs_infer = true →
        ∃ msg, get_impl_method env substs impl_def_id impl_substs name =
          .error (.bug msg)))) ∧
    (env.ancestors_fn_defs trait_def_id impl_def_id name = [] →
      ∃ msg, get_impl_method env substs impl_def_id impl_substs name =
        .error (.bug msg)) := by
  constructor
  · intro node_item rest hchain
    constructor
    · intro hs2
      simp [get_impl_method, hni, htid, hchain, hs2]
    · intro hs2
      exact ⟨"trans::meth::get_impl_method: translate_substs returned substs which contains inference types/regions",
             by simp [get_impl_method, hni, htid, hchain, hs2]⟩
  · intro hchain
    exact ⟨"method not found in impl",
           by simp [get_impl_method, hni, htid, hchain]⟩

/-- Closed witness for C8: in the example, method name 5 on impl 100
resolves to the impl-supplied body 2000 with the translated substitution
and `is_provided = false`. -/
theorem C8_witness :
    get_impl_method baseEnv { id := 1000, needs_infer := false } 100
      { id := 50, needs_infer := false } 5 =
      .ok { method := { def_id := 2000, name := 5, predicates := [] }
            substs := { id := 1000, needs_infer := false }
            is_provided := false } :=
  ((C8_impl_method_resolution baseEnv { id := 1000, needs_infer := false }
      100 { id := 50, needs_infer := false } 5 0 rfl rfl).1
    { item := { def_id := 2000, name := 5, predicates := [] }
      node := .fromImpl 100 } [] rfl).1 rfl

/-- Claim C9: `get_impl_method` aborts on entry exactly when the received
method substitution still needs inference: the assertion failure occurs
if and only if `needs_infer` holds, so the ancestor-chain walk only runs
on inference-free input substitutions. -/
theorem C9_entry_assertion_no_infer
    (env : Env) (substs : Substs) (impl_def_id : DefId)
    (impl_substs : Substs) (name : MethName) :
    get_impl_method env substs impl_def_id impl_substs name =
      .error .assertFailed ↔ substs.needs_infer = true := by
  cases hb : substs.needs_infer with
  | true => simp [get_impl_method, hb]
  | false =>
    simp only [Bool.false_eq_true, iff_false]
    intro h
    unfold get_impl_method at h
    rw [hb] at h
    simp only [Bool.false_eq_true, if_false] at h
    split at h
    · simp at h
    · split at h
      · split at h
        · simp at h
        · simp at h
      · simp at h

/-- Closed witness for C9: an input substitution that still needs
inference is rejected by the entry assertion. -/
theorem C9_witness :
    get_impl_method baseEnv { id := 9, needs_infer := true } 100
      { id := 50, needs_infer := false } 5 = .error .assertFailed :=
  (C9_entry_assertion_no_infer baseEnv { id := 9, needs_infer := true } 100
    { id := 50, needs_infer := false } 5).mpr rfl

/-- Claim C10: `get_vtable_methods` on an impl that implements no trait
(an inherent impl, `impl_trait_ref` is `None`) is a fatal internal error;
it never builds a method table for an inherent impl. -/
theorem C10_inherent_impl_fatal
    (env : Env) (impl_id : DefId) (substs : Substs)
    (h : env.impl_trait_ref impl_id = none) :
    get_vtable_methods env impl_id substs =
      .error (.bug "make_impl_vtable: do not know how to make a vtable for a type impl!") := by
  unfold get_vtable_methods
  rw [h]

/-- Closed witness for C10: def id 999 is no trait impl in the example. -/
theorem C10_witness :
    get_vtable_methods baseEnv 999 { id := 0, needs_infer := false } =
      .error (.bug "make_impl_vtable: do not know how to make a vtable for a type impl!") :=
  C10_inherent_impl_fatal baseEnv 999 { id := 0, needs_infer := false } rfl

end Meth
